import Mathlib

/-!
Verification of the Harding-Yang-Mills audit script
(`Naiver-Strokes-Audit.py`) against its specification.

The script is embedded shallowly over the real numbers: the Python
floating-point scalars become `ℝ`, `np.sin` / `np.cos` / `np.sqrt`
become the Mathlib real functions, and `scipy.integrate.dblquad` over
the unit square becomes the exact iterated interval integral (the
quadrature routine approximates exactly this value).  The SHA-256
digest used by `generate_quantum_ledger_hash` is implemented
executably over `Nat` (all words reduced mod `2 ^ 32`).  Python
float-to-string formatting (the `:.2e`, `:.6f`, `:.2f` templates) is
the one genuinely floating-point-dependent operation; it is carried as
an explicit function parameter `ℝ → String` wherever the source
formats a scalar.
-/

open Real intervalIntegral

namespace HardingYangMills

/-! ## Fundamental constants (module level, lines 14-18 of the source) -/

/-- `HBAR = 1.054571817e-34` (J s). -/
noncomputable def HBAR : ℝ := 1.054571817e-34

/-- `C = 2.99792458e8` (m/s). -/
noncomputable def C : ℝ := 2.99792458e8

/-- `L_P = 1.616255e-35`, the Planck length (m). -/
noncomputable def L_P : ℝ := 1.616255e-35

/-- `G_COUPLING = 1.0`, the gauge coupling. -/
noncomputable def G_COUPLING : ℝ := 1.0

/-- `EPSILON = 1e-40`, the infinitesimal positive value (eV). -/
noncomputable def EPSILON : ℝ := 1e-40

/-! ## Instance constants of `HardingYangMillsVerifier.__init__` -/

/-- `self.S_H = (HBAR**1.5 * C) / np.sqrt(L_P)`, the Harding identity.
Python float exponentiation `**1.5` is embedded as the real power
`Real.rpow`. -/
noncomputable def S_H : ℝ := (HBAR ^ (1.5 : ℝ) * C) / Real.sqrt L_P

/-- `self.F_H = self.S_H`, the energy floor. -/
noncomputable def F_H : ℝ := S_H

/-! ## The field sample function -/

/-- `topological_density_theta_A(x, y)`: computes
`F_norm_sq = 1.0 + 0.1 * np.sin(2 * np.pi * (x + y))`,
`winding = 0.05 * np.cos(4 * np.pi * x) * np.sin(4 * np.pi * y)`,
and returns `F_norm_sq + winding`. -/
noncomputable def topological_density_theta_A (x y : ℝ) : ℝ :=
  let F_norm_sq := 1.0 + 0.1 * Real.sin (2 * π * (x + y))
  let winding := 0.05 * Real.cos (4 * π * x) * Real.sin (4 * π * y)
  F_norm_sq + winding

/-- The field formula exactly as the specification states it (section 4.1):
`1 + 0.1*sin(2π(x+y)) + 0.05*cos(4πx)*sin(4πy)`.  Written from the
words of the spec, to be compared with the source definition. -/
noncomputable def spec_field_sample (x y : ℝ) : ℝ :=
  1 + 0.1 * Real.sin (2 * π * (x + y)) +
    0.05 * Real.cos (4 * π * x) * Real.sin (4 * π * y)

/-! ## Double integration over the unit square

`scipy.integrate.dblquad(func, 0, 1, 0, 1)` approximates
`∫ x in 0..1, ∫ y in 0..1, func(y, x)`: scipy passes the INNER
integration variable as the first argument of `func`.  The embedding
takes the exact value of that iterated integral. -/

/-- Exact value of `dblquad(f, 0, 1, 0, 1)`: the iterated integral of
`f` over the unit square, the inner variable bound to the first
argument of `f` as scipy does. -/
noncomputable def dblquad_unit_square (f : ℝ → ℝ → ℝ) : ℝ :=
  ∫ x in (0:ℝ)..1, ∫ y in (0:ℝ)..1, f y x

/-- `phase_2_damping_coefficient`: returns
`gamma, _ = dblquad(self.topological_density_theta_A, 0, 1, 0, 1)`
(the error estimate is discarded; the prints and the damping
inequality message have no effect on the returned value). -/
noncomputable def phase_2_damping_coefficient : ℝ :=
  dblquad_unit_square topological_density_theta_A

/-- `yang_mills_action`: returns `4 * G_COUPLING**2 * F_term` where
`F_term, _ = dblquad(self.topological_density_theta_A, 0, 1, 0, 1)`. -/
noncomputable def yang_mills_action : ℝ :=
  4 * G_COUPLING ^ 2 * dblquad_unit_square topological_density_theta_A

/-- `phase_3_mass_gap_solution(gamma)`: returns
`delta = EPSILON + topo_term` with `topo_term = self.F_H * gamma`
(the `S_YM` computation and the two printed checks do not affect the
returned value). -/
noncomputable def phase_3_mass_gap_solution (gamma : ℝ) : ℝ :=
  let topo_term := F_H * gamma
  EPSILON + topo_term

/-- `phase_4_sobolev_boundary(S_HYM, delta)`: returns
`K = grad2_u_norm + grad_u_norm + u_norm` for the fixed placeholder
norms `u_norm = 1.0`, `grad_u_norm = 0.8`, `grad2_u_norm = 0.6`
(neither argument affects the returned value). -/
noncomputable def phase_4_sobolev_boundary (S_HYM delta : ℝ) : ℝ :=
  let u_norm := 1.0
  let grad_u_norm := 0.8
  let grad2_u_norm := 0.6
  grad2_u_norm + grad_u_norm + u_norm

/-- The comparison `phase_4_sobolev_boundary` performs for its printed
Sobolev-bound message: `K <= sobolev_bound` where
`C = min(grad2_u_norm, grad_u_norm, u_norm) * 1.5` and
`sobolev_bound = C * S_HYM`. -/
noncomputable def phase_4_sobolev_check (S_HYM : ℝ) : Prop :=
  let u_norm := 1.0
  let grad_u_norm := 0.8
  let grad2_u_norm := 0.6
  let K := grad2_u_norm + grad_u_norm + u_norm
  let Cstab := min grad2_u_norm (min grad_u_norm u_norm) * 1.5
  K ≤ Cstab * S_HYM

/-- The stabilization threshold exactly as the specification words it
(section 4.3): the minimum of the three norms scaled by the fixed
factor (the `scaling_factor` 1.5 of the source).  Written from the
words of the spec, to be compared with the comparison the source
performs. -/
noncomputable def spec_stabilization_threshold : ℝ :=
  min 0.6 (min 0.8 1.0) * 1.5

end HardingYangMills

/-! ## SHA-256

Executable embedding of `hashlib.sha256(...).hexdigest()` over `Nat`
(FIPS 180-4), every word reduced mod `2 ^ 32`. -/

namespace SHA256

/-- Reduce a natural number to a 32-bit word. -/
def w32 (n : Nat) : Nat := n % 4294967296

/-- Right rotation of a 32-bit word by `n` places. -/
def rotr (n x : Nat) : Nat := w32 ((x >>> n) ||| (x <<< (32 - n)))

def bigSigma0 (x : Nat) : Nat := rotr 2 x ^^^ rotr 13 x ^^^ rotr 22 x

def bigSigma1 (x : Nat) : Nat := rotr 6 x ^^^ rotr 11 x ^^^ rotr 25 x

def smallSigma0 (x : Nat) : Nat := rotr 7 x ^^^ rotr 18 x ^^^ (x >>> 3)

def smallSigma1 (x : Nat) : Nat := rotr 17 x ^^^ rotr 19 x ^^^ (x >>> 10)

/-- Choice function; the complement is taken within 32 bits. -/
def ch (x y z : Nat) : Nat := (x &&& y) ^^^ ((x ^^^ 4294967295) &&& z)

/-- Majority function. -/
def maj (x y z : Nat) : Nat := (x &&& y) ^^^ (x &&& z) ^^^ (y &&& z)

/-- The 64 SHA-256 round constants (FIPS 180-4 section 4.2.2), written
in decimal. -/
def roundK : List Nat :=
  [1116352408, 1899447441, 3049323471, 3921009573, 961987163,
   1508970993, 2453635748, 2870763221, 3624381080, 310598401,
   607225278, 1426881987, 1925078388, 2162078206, 2614888103,
   3248222580, 3835390401, 4022224774, 264347078, 604807628,
   770255983, 1249150122, 1555081692, 1996064986, 2554220882,
   2821834349, 2952996808, 3210313671, 3336571891, 3584528711,
   113926993, 338241895, 666307205, 773529912, 1294757372,
   1396182291, 1695183700, 1986661051, 2177026350, 2456956037,
   2730485921, 2820302411, 3259730800, 3345764771, 3516065817,
   3600352804, 4094571909, 275423344, 430227734, 506948616,
   659060556, 883997877, 958139571, 1322822218, 1537002063,
   1747873779, 1955562222, 2024104815, 2227730452, 2361852424,
   2428436474, 2756734187, 3204031479, 3329325298]

/-- Big-endian byte expansion: `n` bytes of the value `v`. -/
def beBytes (n : Nat) (v : Nat) : List Nat :=
  (List.range n).reverse.map (fun i => (v >>> (8 * i)) % 256)

/-- SHA-256 padding: a 0x80 byte, zeros to 56 mod 64, then the bit
length on 8 big-endian bytes. -/
def padMessage (msg : List Nat) : List Nat :=
  let len := msg.length
  let zeros := (120 - (len + 1) % 64) % 64
  msg ++ [0x80] ++ List.replicate zeros 0 ++ beBytes 8 (len * 8)

/-- Group a byte list into big-endian 32-bit words. -/
def toWords : List Nat → List Nat
  | b0 :: b1 :: b2 :: b3 :: rest =>
      (((b0 * 256 + b1) * 256 + b2) * 256 + b3) :: toWords rest
  | _ => []

/-- Split a byte list into 64-byte blocks. -/
def blocks64 (l : List Nat) : List (List Nat) :=
  if h : l = [] then []
  else l.take 64 :: blocks64 (l.drop 64)
termination_by l.length
decreasing_by
  have hl : 0 < l.length := List.length_pos.mpr h
  simp [List.length_drop]
  omega

/-- Extend the 16 words of a block to the 64-entry message schedule. -/
def extendW (w : Array Nat) : Array Nat :=
  (List.range 48).foldl (fun w i =>
    let t := i + 16
    w.push (w32 (smallSigma1 (w.getD (t - 2) 0) + w.getD (t - 7) 0
      + smallSigma0 (w.getD (t - 15) 0) + w.getD (t - 16) 0))) w

/-- The eight 32-bit working variables of the compression function. -/
structure Hash8 where
  a : Nat
  b : Nat
  c : Nat
  d : Nat
  e : Nat
  f : Nat
  g : Nat
  h : Nat

/-- One round of the SHA-256 compression function. -/
def compressRound (s : Hash8) (kt wt : Nat) : Hash8 :=
  let T1 := w32 (s.h + bigSigma1 s.e + ch s.e s.f s.g + kt + wt)
  let T2 := w32 (bigSigma0 s.a + maj s.a s.b s.c)
  ⟨w32 (T1 + T2), s.a, s.b, s.c, w32 (s.d + T1), s.e, s.f, s.g⟩

/-- Process one 64-byte block. -/
def processBlock (h0 : Hash8) (block : List Nat) : Hash8 :=
  let w := extendW (toWords block).toArray
  let s := (List.range 64).foldl
    (fun s t => compressRound s (roundK.getD t 0) (w.getD t 0)) h0
  ⟨w32 (h0.a + s.a), w32 (h0.b + s.b), w32 (h0.c + s.c), w32 (h0.d + s.d),
   w32 (h0.e + s.e), w32 (h0.f + s.f), w32 (h0.g + s.g), w32 (h0.h + s.h)⟩

/-- The SHA-256 initial hash value (FIPS 180-4 section 5.3.3),
written in decimal. -/
def initH : Hash8 :=
  ⟨1779033703, 3144134277, 1013904242, 2773480762,
   1359893119, 2600822924, 528734635, 1541459225⟩

/-- SHA-256 of a byte list, as eight 32-bit words. -/
def sha256Words (msg : List Nat) : List Nat :=
  let hf := (blocks64 (padMessage msg)).foldl processBlock initH
  [hf.a, hf.b, hf.c, hf.d, hf.e, hf.f, hf.g, hf.h]

/-- Lowercase hexadecimal digit. -/
def hexDigit (n : Nat) : Char :=
  if n < 10 then Char.ofNat (48 + n) else Char.ofNat (87 + n)

/-- Eight lowercase hex characters of a 32-bit word, big-endian. -/
def wordHex (v : Nat) : List Char :=
  (List.range 8).reverse.map (fun i => hexDigit ((v >>> (4 * i)) % 16))

/-- The lowercase hexadecimal SHA-256 digest of a byte list: the
embedding of `hashlib.sha256(bytes).hexdigest()`. -/
def hexdigestBytes (msg : List Nat) : String :=
  String.mk ((sha256Words msg).map wordHex).flatten

/-- UTF-8 bytes of a string: the embedding of `str.encode()`. -/
def stringBytes (s : String) : List Nat :=
  s.toUTF8.toList.map (fun b => b.toNat)

/-- The embedding of `hashlib.sha256(s.encode()).hexdigest()`. -/
def sha256_hexdigest (s : String) : String := hexdigestBytes (stringBytes s)

end SHA256

namespace HardingYangMills

/-! ## Digest and orchestration

Python float-to-string formatting (`:.2e`, `:.6f`, `:.2f`) rounds
through the binary floating-point value; it is the one operation of
the script with no exact real counterpart, so it is carried as
explicit `ℝ → String` parameters. -/

/-- The f-string of `generate_quantum_ledger_hash`:
`state_data = "F_H:..|γ:..|Δ:..|K:.."` with `F_H` and `delta`
formatted by the `:.2e` template, `gamma` by `:.6f` and `K` by
`:.2f`. -/
def state_data (fmt2e fmt6f fmt2f : ℝ → String)
    (F_H gamma delta K : ℝ) : String :=
  "F_H:" ++ fmt2e F_H ++ "|γ:" ++ fmt6f gamma ++ "|Δ:" ++ fmt2e delta
    ++ "|K:" ++ fmt2f K

/-- `generate_quantum_ledger_hash(F_H, gamma, delta, K)`: returns
`hashlib.sha256(state_data.encode()).hexdigest()[:20].upper()`. -/
def generate_quantum_ledger_hash (fmt2e fmt6f fmt2f : ℝ → String)
    (F_H gamma delta K : ℝ) : String :=
  ((SHA256.sha256_hexdigest
      (state_data fmt2e fmt6f fmt2f F_H gamma delta K)).take 20).toUpper

/-- The dictionary returned by `run_complete_verification`. -/
structure VerificationResult where
  F_H : ℝ
  gamma : ℝ
  delta : ℝ
  K : ℝ
  S_HYM : ℝ
  quantum_ledger_hash : String
  verified : Prop

/-- `run_complete_verification`: runs the four phases once in
sequence, computes `S_HYM = yang_mills_action() + F_H * gamma +
delta`, the ledger hash, and returns the result dictionary with
`verified = (delta > 0)`.  Phase 1 only prints and computes nothing. -/
noncomputable def run_complete_verification
    (fmt2e fmt6f fmt2f : ℝ → String) : VerificationResult :=
  let gamma := phase_2_damping_coefficient
  let delta := phase_3_mass_gap_solution gamma
  let S_HYM := yang_mills_action + F_H * gamma + delta
  let K := phase_4_sobolev_boundary S_HYM delta
  let qledger_hash :=
    generate_quantum_ledger_hash fmt2e fmt6f fmt2f F_H gamma delta K
  ⟨F_H, gamma, delta, K, S_HYM, qledger_hash, delta > 0⟩

/-! ## The exact value of the double integral -/

lemma continuous_theta_fst (x : ℝ) :
    Continuous fun y : ℝ => topological_density_theta_A y x := by
  unfold topological_density_theta_A
  fun_prop

/-- The inner sine term integrates to zero over a full period. -/
lemma integral_sin_shift (x : ℝ) :
    ∫ y in (0:ℝ)..1, Real.sin (2 * π * y + 2 * π * x) = 0 := by
  have h2pi : (2 * π : ℝ) ≠ 0 := by positivity
  rw [intervalIntegral.integral_comp_mul_add Real.sin h2pi (2 * π * x)]
  rw [integral_sin]
  simp only [mul_zero, zero_add, mul_one]
  rw [add_comm (2 * π) (2 * π * x), Real.cos_add_two_pi]
  simp

/-- The inner cosine factor integrates to zero over two full periods. -/
lemma integral_cos_4pi : ∫ y in (0:ℝ)..1, Real.cos (4 * π * y) = 0 := by
  have h4pi : (4 * π : ℝ) ≠ 0 := by positivity
  rw [intervalIntegral.integral_comp_mul_left Real.cos h4pi]
  rw [integral_cos]
  simp only [mul_zero, mul_one]
  have h4 : Real.sin (4 * π) = 0 := by
    have h42 : (4 : ℝ) * π = 2 * π + 2 * π := by ring
    rw [h42, Real.sin_add_two_pi, Real.sin_two_pi]
  simp [h4]

/-- For every fixed outer variable, the inner integral of the field
sample function over [0,1] equals 1. -/
lemma inner_integral_eq_one (x : ℝ) :
    ∫ y in (0:ℝ)..1, topological_density_theta_A y x = 1 := by
  have hcong : Set.EqOn (fun y => topological_density_theta_A y x)
      (fun y => 1 + 0.1 * Real.sin (2 * π * y + 2 * π * x)
        + 0.05 * Real.sin (4 * π * x) * Real.cos (4 * π * y))
      (Set.uIcc (0:ℝ) 1) := by
    intro y _
    simp only [topological_density_theta_A]
    have harg : 2 * π * (y + x) = 2 * π * y + 2 * π * x := by ring
    rw [harg]
    ring
  rw [intervalIntegral.integral_congr hcong]
  have hS : IntervalIntegrable
      (fun y => 0.1 * Real.sin (2 * π * y + 2 * π * x))
      MeasureTheory.volume 0 1 :=
    (by fun_prop : Continuous _).intervalIntegrable 0 1
  have hC : IntervalIntegrable
      (fun y => 0.05 * Real.sin (4 * π * x) * Real.cos (4 * π * y))
      MeasureTheory.volume 0 1 :=
    (by fun_prop : Continuous _).intervalIntegrable 0 1
  have h1 : IntervalIntegrable (fun _ : ℝ => (1:ℝ))
      MeasureTheory.volume 0 1 :=
    (by fun_prop : Continuous _).intervalIntegrable 0 1
  rw [intervalIntegral.integral_add (h1.add hS) hC,
    intervalIntegral.integral_add h1 hS,
    intervalIntegral.integral_const_mul,
    intervalIntegral.integral_const_mul,
    integral_sin_shift, integral_cos_4pi]
  simp

/-- The double integral of the field sample function over the unit
square equals exactly 1: the sinusoidal and cross terms integrate to
zero over full periods. -/
lemma gamma_eq_one : phase_2_damping_coefficient = 1 := by
  unfold phase_2_damping_coefficient dblquad_unit_square
  have hcong : Set.EqOn
      (fun x : ℝ => ∫ y in (0:ℝ)..1, topological_density_theta_A y x)
      (fun _ : ℝ => (1:ℝ)) (Set.uIcc (0:ℝ) 1) :=
    fun x _ => inner_integral_eq_one x
  rw [intervalIntegral.integral_congr hcong]
  simp

end HardingYangMills

namespace HardingYangMills

/-- Claim C1: for every x and y in [0,1] the field sample function
returns exactly `1 + 0.1*sin(2π(x+y)) + 0.05*cos(4πx)*sin(4πy)`.  As a
total function on `ℝ × ℝ` it is pure and deterministic and has no
error condition on that domain. -/
theorem field_sample_matches_spec (x y : ℝ)
    (hx0 : 0 ≤ x) (hx1 : x ≤ 1) (hy0 : 0 ≤ y) (hy1 : y ≤ 1) :
    topological_density_theta_A x y = spec_field_sample x y := by
  unfold topological_density_theta_A spec_field_sample
  norm_num

/-- Claim C1, witness: the theorem instantiated at the concrete domain
point (1/2, 1/2). -/
theorem field_sample_matches_spec_witness :
    topological_density_theta_A (1/2) (1/2) = spec_field_sample (1/2) (1/2) :=
  field_sample_matches_spec (1/2) (1/2) (by norm_num) (by norm_num)
    (by norm_num) (by norm_num)

/-- Claim C2: the damping coefficient gamma computed by
`phase_2_damping_coefficient` — the double integral of the field
sample function over [0,1]x[0,1] — equals the fixed reference value
1.0 to within the quadrature tolerance of 1e-6; indeed the exact
integral of the sinusoidal and cross terms over the unit square is
zero, so the exact value is 1. -/
theorem gamma_within_tolerance_of_one :
    |phase_2_damping_coefficient - 1| ≤ 1e-6 := by
  rw [gamma_eq_one]
  norm_num

/-- Claim C3: for every damping coefficient, the gap value delta
returned by `phase_3_mass_gap_solution` equals EPSILON plus the
product of the energy floor F_H and the damping coefficient, where
F_H is the pure function of the fixed constants
`(HBAR ^ 1.5 * C) / sqrt L_P`. -/
theorem delta_eq_epsilon_add_floor_mul_gamma (gamma : ℝ) :
    phase_3_mass_gap_solution gamma
      = EPSILON + (HBAR ^ (1.5 : ℝ) * C / Real.sqrt L_P) * gamma := by
  simp only [phase_3_mass_gap_solution, F_H, S_H]

/-- Claim C4 counterexample: at the concrete argument `S_HYM = 4`,
the comparison `phase_4_sobolev_boundary` performs succeeds
(2.4 <= 0.9 * 4), yet the aggregate K = 2.4 does NOT lie below the
threshold the claim describes (the minimum norm scaled by the fixed
factor, 0.6 * 1.5 = 0.9): the code compares K against
`min * 1.5 * S_HYM`, not against `min * 1.5`. -/
theorem sobolev_check_not_spec_threshold :
    phase_4_sobolev_check 4 ∧
      ¬ phase_4_sobolev_boundary 4 0 ≤ spec_stabilization_threshold := by
  constructor
  · simp only [phase_4_sobolev_check]
    norm_num [min_def]
  · simp only [phase_4_sobolev_boundary, spec_stabilization_threshold]
    norm_num [min_def]

/-- Claim C4 as amended: in `phase_4_sobolev_boundary` the aggregate
scalar K (the sum of the three fixed placeholder norms) is compared
against the stabilization bound `C * S_HYM`, where the stabilization
constant C is the minimum of the three norms scaled by the fixed
factor 1.5 and S_HYM is the action argument of the phase. -/
theorem sobolev_check_structure (S_HYM delta : ℝ) :
    phase_4_sobolev_check S_HYM ↔
      phase_4_sobolev_boundary S_HYM delta
        ≤ (min 0.6 (min 0.8 1.0) * 1.5) * S_HYM := by
  simp only [phase_4_sobolev_check, phase_4_sobolev_boundary]

/-- Claim C5: given the fixed placeholder norms 1.0, 0.8 and 0.6, the
aggregate K computed by `phase_4_sobolev_boundary` (their sum) equals
exactly 2.4, whatever the arguments of the phase. -/
theorem K_eq_2_4 (S_HYM delta : ℝ) :
    phase_4_sobolev_boundary S_HYM delta = 2.4 := by
  simp only [phase_4_sobolev_boundary]
  norm_num

/-- Claim C6: for every damping coefficient whose product with the
energy floor F_H is non-negative, the gap value delta returned by
`phase_3_mass_gap_solution` is strictly positive, EPSILON being the
fixed positive constant 1e-40. -/
theorem delta_strictly_positive (gamma : ℝ) (h : 0 ≤ F_H * gamma) :
    0 < phase_3_mass_gap_solution gamma := by
  simp only [phase_3_mass_gap_solution]
  have hE : (0:ℝ) < EPSILON := by
    simp only [EPSILON]
    norm_num
  linarith

/-- Claim C6, witness: the theorem instantiated at damping
coefficient 0, where the product with the energy floor is 0. -/
theorem delta_strictly_positive_witness :
    0 ≤ F_H * 0 ∧ 0 < phase_3_mass_gap_solution 0 :=
  ⟨le_of_eq (mul_zero F_H).symm,
    delta_strictly_positive 0 (le_of_eq (mul_zero F_H).symm)⟩

/-- Claim C7: `generate_quantum_ledger_hash` is deterministic — two
runs on identical scalar inputs (under the same float formatting)
produce the identical formatted string and hence the identical digest
— and the digest is the first 20 hexadecimal characters of the
SHA-256 of that string, uppercased. -/
theorem ledger_hash_deterministic_and_truncated
    (fmt2e fmt6f fmt2f : ℝ → String)
    (fh1 g1 d1 k1 fh2 g2 d2 k2 : ℝ)
    (hf : fh1 = fh2) (hg : g1 = g2) (hd : d1 = d2) (hk : k1 = k2) :
    state_data fmt2e fmt6f fmt2f fh1 g1 d1 k1
        = state_data fmt2e fmt6f fmt2f fh2 g2 d2 k2
      ∧ generate_quantum_ledger_hash fmt2e fmt6f fmt2f fh1 g1 d1 k1
        = generate_quantum_ledger_hash fmt2e fmt6f fmt2f fh2 g2 d2 k2
      ∧ generate_quantum_ledger_hash fmt2e fmt6f fmt2f fh1 g1 d1 k1
        = ((SHA256.sha256_hexdigest
            (state_data fmt2e fmt6f fmt2f fh1 g1 d1 k1)).take 20).toUpper := by
  subst hf hg hd hk
  exact ⟨rfl, rfl, rfl⟩

/-- Claim C7, witness: the theorem instantiated at a concrete
formatter and concrete equal scalar inputs. -/
theorem ledger_hash_deterministic_witness :
    state_data (fun _ => "0") (fun _ => "0") (fun _ => "0") 0 0 0 0
        = state_data (fun _ => "0") (fun _ => "0") (fun _ => "0") 0 0 0 0
      ∧ generate_quantum_ledger_hash
            (fun _ => "0") (fun _ => "0") (fun _ => "0") 0 0 0 0
        = generate_quantum_ledger_hash
            (fun _ => "0") (fun _ => "0") (fun _ => "0") 0 0 0 0
      ∧ generate_quantum_ledger_hash
            (fun _ => "0") (fun _ => "0") (fun _ => "0") 0 0 0 0
        = ((SHA256.sha256_hexdigest
            (state_data (fun _ => "0") (fun _ => "0") (fun _ => "0")
              0 0 0 0)).take 20).toUpper :=
  ledger_hash_deterministic_and_truncated
    (fun _ => "0") (fun _ => "0") (fun _ => "0")
    0 0 0 0 0 0 0 0 rfl rfl rfl rfl

lemma F_H_pos : 0 < F_H := by
  unfold F_H S_H
  apply div_pos
  · apply mul_pos
    · apply Real.rpow_pos_of_pos
      unfold HBAR
      norm_num
    · unfold C
      norm_num
  · apply Real.sqrt_pos.mpr
    unfold L_P
    norm_num

lemma delta_of_run_pos :
    0 < phase_3_mass_gap_solution phase_2_damping_coefficient := by
  simp only [phase_3_mass_gap_solution, gamma_eq_one, mul_one]
  have hE : (0:ℝ) < EPSILON := by
    simp only [EPSILON]
    norm_num
  linarith [F_H_pos]

/-- Claim C8: the verified field of the result record returned by
`run_complete_verification` is the comparison `delta > 0`, and it
always holds, since `delta = EPSILON + F_H * gamma` with
`EPSILON = 1e-40 > 0` and `F_H * gamma > 0` (`F_H > 0` and the
integral `gamma` equals 1). -/
theorem run_verified_iff_delta_pos (fmt2e fmt6f fmt2f : ℝ → String) :
    ((run_complete_verification fmt2e fmt6f fmt2f).verified
        ↔ 0 < (run_complete_verification fmt2e fmt6f fmt2f).delta)
      ∧ (run_complete_verification fmt2e fmt6f fmt2f).verified := by
  refine ⟨Iff.rfl, ?_⟩
  simp only [run_complete_verification]
  exact delta_of_run_pos

/-- Claim C9: `yang_mills_action` returns `4 * G_COUPLING ^ 2` times
the same double integral that defines the damping coefficient, and
with `G_COUPLING = 1` it equals exactly `4 *
phase_2_damping_coefficient`. -/
theorem yang_mills_action_eq_four_gamma :
    yang_mills_action
        = 4 * G_COUPLING ^ 2 * dblquad_unit_square topological_density_theta_A
      ∧ yang_mills_action = 4 * phase_2_damping_coefficient := by
  refine ⟨rfl, ?_⟩
  simp only [yang_mills_action, phase_2_damping_coefficient, G_COUPLING]
  norm_num

/-- Claim C10: `run_complete_verification` has no failure path: it is
a total straight-line composition that invokes each phase once and
always returns the fully assembled result record (hence the script
always exits with status 0). -/
theorem run_complete_verification_total (fmt2e fmt6f fmt2f : ℝ → String) :
    run_complete_verification fmt2e fmt6f fmt2f
      = ⟨F_H,
         phase_2_damping_coefficient,
         phase_3_mass_gap_solution phase_2_damping_coefficient,
         phase_4_sobolev_boundary
           (yang_mills_action + F_H * phase_2_damping_coefficient
             + phase_3_mass_gap_solution phase_2_damping_coefficient)
           (phase_3_mass_gap_solution phase_2_damping_coefficient),
         yang_mills_action + F_H * phase_2_damping_coefficient
           + phase_3_mass_gap_solution phase_2_damping_coefficient,
         generate_quantum_ledger_hash fmt2e fmt6f fmt2f F_H
           phase_2_damping_coefficient
           (phase_3_mass_gap_solution phase_2_damping_coefficient)
           (phase_4_sobolev_boundary
             (yang_mills_action + F_H * phase_2_damping_coefficient
               + phase_3_mass_gap_solution phase_2_damping_coefficient)
             (phase_3_mass_gap_solution phase_2_damping_coefficient)),
         phase_3_mass_gap_solution phase_2_damping_coefficient > 0⟩ :=
  rfl

end HardingYangMills
